import Mathlib

/-!
Shallow embedding of the Onacc Climate Forecast Analysis repository
(two near-duplicate Streamlit variants, `src/app.py` and `src/main.py`).

The embedding covers the coordinate-parsing, request-building and
response-normalization logic of the two module-level submission handlers
and the helper functions `create_dataframe` and `get_api_error`.
Decoded JSON bodies are modelled by the inductive `JVal`; Python
exceptions that abort a submission are modelled by `Except PyErr`.
Declarations in namespace `App` embed `src/app.py`; declarations in
namespace `Main` embed `src/main.py`; the coordinate-handling code,
identical in the two files, is embedded once at top level.
-/

/-- A decoded JSON value, as produced by `response.json()`. Numeric
payloads are carried opaquely (no claim inspects a numeric value). -/
inductive JVal where
  | null
  | bool (b : Bool)
  | num (n : Int)
  | str (s : String)
  | arr (xs : List JVal)
  | obj (fields : List (String × JVal))

/-- Python dictionary lookup `d[k]` / `d.get(k)` on a decoded JSON value:
returns the value of the first field named `k` of an object, and `none`
on a missing key or a non-object value. -/
def JVal.lookup : JVal → String → Option JVal
  | .obj fields, k => (fields.find? (fun f => f.1 == k)).map Prod.snd
  | _, _ => none

/-- Python `isinstance(v, dict)`. -/
def JVal.isObj : JVal → Bool
  | .obj _ => true
  | _ => false

/-- Python `k in v` membership test on a dictionary value. -/
def JVal.hasKey (v : JVal) (k : String) : Bool := (v.lookup k).isSome

/-- Rendering of a decoded JSON value interpolated into an f-string.
Exact for the scalar values exercised by the error-message code (the
`reason` field of an error body is a string); container values are
rendered structurally rather than byte-for-byte like Python `str`. -/
def JVal.pyText : JVal → String
  | .null => "None"
  | .bool b => if b then ("True") else ("False")
  | .num n => toString n
  | .str s => s
  | .arr _ => "[...]"
  | .obj _ => "\x7b...\x7d"

/-- A Python exception that aborts the submission handler and is caught
at its outermost `try`/`except`. -/
inductive PyErr where
  | valueError (msg : String)
  | keyError (key : String)
  | indexError
deriving DecidableEq

/-! ## Python string primitives

`str.split(sep)` and `str.strip()` are re-implemented structurally
(fuel-based recursion) so that the kernel can evaluate them on the
concrete inputs used by witnesses. -/

/-- Worker for `pySplit`: scans the character list left to right,
splitting at each non-overlapping occurrence of the separator. The fuel
starts at one more than the length of the list and is never exhausted
for a non-empty separator. -/
def pySplitGo (sep : List Char) : Nat → List Char → List Char → List (List Char)
  | 0, rest, acc => [acc.reverse ++ rest]
  | _ + 1, [], acc => [acc.reverse]
  | fuel + 1, c :: rest, acc =>
    if sep.isPrefixOf (c :: rest) then
      acc.reverse :: pySplitGo sep fuel ((c :: rest).drop sep.length) []
    else
      pySplitGo sep fuel rest (c :: acc)

/-- Python `s.split(sep)` for a non-empty separator. -/
def pySplit (s sep : String) : List String :=
  (pySplitGo sep.toList (s.toList.length + 1) s.toList []).map String.mk

/-- Python `s.strip()`: drop leading and trailing whitespace. -/
def pyStrip (s : String) : String :=
  String.mk (((s.toList.dropWhile Char.isWhitespace).reverse.dropWhile Char.isWhitespace).reverse)

/-! ## Coordinate validation (identical in `src/app.py` 441-457 and
`src/main.py` 414-430) -/

/-- The two coordinate-validation failures. `invalidFormat` carries the
offending fragment shown by the warning
`Format de coordonnées invalide pour la paire : ...`; `noCoords` is the
warning `Aucune coordonnée valide fournie !`. Both call `st.stop()`,
aborting the whole submission. -/
inductive CoordError where
  | invalidFormat (fragment : String)
  | noCoords
deriving DecidableEq

/-- The fragment list `pairs = [pair.strip() for pair in coords.split(", ")
if pair.strip()]`, guarded by `if coords:`. -/
def fragments (coords : String) : List String :=
  if coords = "" then []
  else ((pySplit coords (", ")).map pyStrip).filter (fun s => s ≠ "")

/-- Number of comma-separated tokens of one fragment:
`len(pair.split(","))`. -/
def numTokens (frag : String) : Nat := (pySplit frag (",")).length

/-- The per-fragment loop: each fragment must split on `","` into exactly
two parts; the first offending fragment aborts with `invalidFormat`,
otherwise the trimmed token pairs are collected in input order. -/
def parse_pairs : List String → Except CoordError (List (String × String))
  | [] => .ok []
  | f :: rest =>
    match pySplit f (",") with
    | [a, b] =>
      match parse_pairs rest with
      | .error e => .error e
      | .ok ps => .ok ((pyStrip a, pyStrip b) :: ps)
    | _ => .error (.invalidFormat f)

/-- The flat `coords_list`, built by extending two tokens per pair. -/
def coords_flat (ps : List (String × String)) : List String :=
  (ps.map (fun p => [p.1, p.2])).flatten

/-- Python slice `[::2]` (even indices). `coords_list[::2]` is the
`latitude` sequence of `base_params`. -/
def slice_evens : List α → List α
  | [] => []
  | [a] => [a]
  | a :: _ :: rest => a :: slice_evens rest

/-- Python slice `[1::2]` (odd indices). `coords_list[1::2]` is the
`longitude` sequence of `base_params`. -/
def slice_odds : List α → List α
  | [] => []
  | [_] => []
  | _ :: b :: rest => b :: slice_odds rest

/-- Full coordinate validation of the submission handler: build the
fragments, fail on the first fragment that does not split into exactly
two comma-separated tokens, and fail with `noCoords` when the resulting
flat `coords_list` is empty. -/
def parse_coords (coords : String) : Except CoordError (List (String × String)) :=
  match parse_pairs (fragments coords) with
  | .error e => .error e
  | .ok ps =>
    if (coords_flat ps).isEmpty then .error .noCoords else .ok ps

/-! ## Locality resolution (shared) -/

/-- The lookup `localite_map.get((lat, lon), "N/A")` used when building
each row. -/
def localiteFor (lmap : List ((String × String) × String)) (lat lon : String) : String :=
  match lmap.find? (fun e => e.1.1 == lat && e.1.2 == lon) with
  | some e => e.2
  | none => "N/A"

/-! ## `src/app.py` -/

namespace App

/-- A row group of the DataFrame built by `create_dataframe` in
`src/app.py` (lines 155-178): the constant columns plus one entry per
variable column. A column value of `none` is the Python `None`
(rendered by pandas as NaN). -/
structure Row where
  localite : String
  time : JVal
  latitude : String
  longitude : String
  cols : List (String × Option JVal)

/-- The `param_mapping` dictionary of `src/app.py` (lines 169-173). -/
def param_mapping : List (String × String) :=
  [("temperature_2m_max", "Température max (°C)"),
   ("temperature_2m_min", "Température min (°C)"),
   ("precipitation_sum", "Précipitations (mm)")]

/-- `create_dataframe` of `src/app.py` (lines 155-178): a missing
`daily`/`time` key raises the caught-and-rewrapped ValueError; otherwise
one column is created for every entry of `param_mapping`, with
`data["daily"].get(api_param, None)` as its value. The `mode` argument
is unused, as in the source. -/
def create_dataframe (data : JVal) (lat lon localite mode : String) : Except PyErr Row :=
  match (data.lookup ("daily")).bind (fun d => d.lookup ("time")) with
  | none => .error (.valueError ("Données temporelles manquantes dans la réponse API"))
  | some t =>
    .ok ⟨localite, t, lat, lon,
      param_mapping.map (fun p => (p.2, (data.lookup ("daily")).bind (fun d => d.lookup p.1)))⟩

/-- The guard `isinstance(forecast, dict) and "daily" in forecast` of the
multi-location loop (negation of the skip condition at line 523). -/
def goodDaily (forecast : JVal) : Bool :=
  forecast.isObj && forecast.hasKey ("daily")

/-- The multi-location loop of `src/app.py` (lines 516-534), iterating
over `enumerate(zip(latitude, longitude))` and breaking once the index
reaches `len(data)`: callers pass `pairs.zip items`. A location failing
the `goodDaily` guard is skipped with the recorded warning
`Données invalides pour lat,lon`; otherwise `create_dataframe` runs and
its exception aborts the whole loop. -/
def process_rows (lmap : List ((String × String) × String)) (mode : String) :
    List ((String × String) × JVal) → Except PyErr (List Row × List String)
  | [] => .ok ([], [])
  | ((lat, lon), forecast) :: rest =>
    if goodDaily forecast then
      match create_dataframe forecast lat lon (localiteFor lmap lat lon) mode with
      | .error e => .error e
      | .ok row =>
        match process_rows lmap mode rest with
        | .error e => .error e
        | .ok (rows, warns) => .ok (row :: rows, warns)
    else
      match process_rows lmap mode rest with
      | .error e => .error e
      | .ok (rows, warns) => .ok (rows, ("Données invalides pour " ++ lat ++ "," ++ lon) :: warns)

/-- The response dispatch of `src/app.py` (lines 515-547): an array
response runs the truncating multi-location loop; any other response is
treated as a single location, requiring the `daily` key (line 537) and
normalizing with the first coordinate pair. -/
def collect (data : JVal) (pairs : List (String × String))
    (lmap : List ((String × String) × String)) (mode : String) :
    Except PyErr (List Row × List String) :=
  match data with
  | .arr items => process_rows lmap mode (pairs.zip items)
  | _ =>
    if (data.lookup ("daily")).isNone then
      .error (.valueError ("Structure de réponse API invalide : clé \x27daily\x27 manquante"))
    else
      match pairs with
      | [] => .error .indexError
      | (lat, lon) :: _ =>
        match create_dataframe data lat lon (localiteFor lmap lat lon) mode with
        | .error e => .error e
        | .ok row => .ok ([row], [])

/-- The per-status message table `error_mapping` of `get_api_error`
(`src/app.py` lines 183-189). -/
def error_mapping : List (Nat × String) :=
  [(400, "Requête invalide - Vérifiez les paramètres"),
   (401, "Authentification requise"),
   (403, "Accès refusé"),
   (404, "Endpoint introuvable"),
   (500, "Erreur serveur")]

/-- `get_api_error` of `src/app.py` (lines 180-194): for a dict-shaped
body the canned (or generic `Erreur HTTP code`) message is suffixed with
the body reason, defaulting to `Erreur inconnue`; otherwise the canned
or generic message alone is returned. -/
def get_api_error (response_data : JVal) (status_code : Nat) : String :=
  let error_message := "Erreur HTTP " ++ toString status_code
  let canned := (((error_mapping.find? (fun e => e.1 == status_code)).map Prod.snd).getD error_message)
  match response_data with
  | .obj _ =>
    canned ++ " : " ++ ((response_data.lookup ("reason")).getD (.str ("Erreur inconnue"))).pyText
  | _ => canned

/-- The submission handler of `src/app.py` after JSON decoding (lines
512-550): a non-200 status raises `ValueError(get_api_error(...))`;
otherwise the response is normalized and `pd.concat` raises
`ValueError("No objects to concatenate")` when zero rows were produced. -/
def submission (status : Nat) (data : JVal) (pairs : List (String × String))
    (lmap : List ((String × String) × String)) (mode : String) :
    Except PyErr (List Row × List String) :=
  if status ≠ 200 then .error (.valueError (get_api_error data status))
  else
    match collect data pairs lmap mode with
    | .error e => .error e
    | .ok (dfs, warns) =>
      if dfs.isEmpty then .error (.valueError ("No objects to concatenate"))
      else .ok (dfs, warns)

/-- The `base_params["daily"]` list sent by `src/app.py` (lines
473-502): each of the three mode branches overwrites the initial empty
list with the full three-variable list. The three checkbox values are
read by the form (lines 432-434) but never consulted by the handler,
hence the unused arguments. -/
def daily_params (forecast_mode : String) (temp_max temp_min precipitation : Bool) : List String :=
  if forecast_mode = "Prévisions météo" ∨ forecast_mode = "Prévisions saisonnières"
      ∨ forecast_mode = "Projections climatiques" then
    ["temperature_2m_max", "temperature_2m_min", "precipitation_sum"]
  else []

end App

/-! ## `src/main.py` -/

namespace Main

/-- A row group of the DataFrame built by `create_dataframe` in
`src/main.py` (lines 135-159). Variable columns are only present when
the corresponding key exists in the response. -/
structure Row where
  localite : String
  time : JVal
  latitude : String
  longitude : String
  cols : List (String × JVal)

/-- One conditional column assignment
`if key in data["daily"]: df[col] = data["daily"][key]`. -/
def optCol (daily : JVal) (key col : String) : List (String × JVal) :=
  match daily.lookup key with
  | some v => [(col, v)]
  | none => []

/-- `create_dataframe` of `src/main.py` (lines 135-159): unguarded
`data["daily"]["time"]` access whose KeyError propagates; then, in
seasonal mode, one conditional column per `_mean`-suffixed key, and in
every other mode one conditional column per plain key. -/
def create_dataframe (data : JVal) (lat lon localite mode : String) : Except PyErr Row :=
  match data.lookup ("daily") with
  | none => .error (.keyError ("daily"))
  | some daily =>
    match daily.lookup ("time") with
    | none => .error (.keyError ("time"))
    | some t =>
      let cols :=
        if mode = "Prévisions saisonnières" then
          optCol daily ("temperature_2m_max_mean") ("Température max (°C)") ++
          optCol daily ("temperature_2m_min_mean") ("Température min (°C)") ++
          optCol daily ("precipitation_sum_mean") ("Précipitations (mm)")
        else
          optCol daily ("temperature_2m_max") ("Température max (°C)") ++
          optCol daily ("temperature_2m_min") ("Température min (°C)") ++
          optCol daily ("precipitation_sum") ("Précipitations (mm)")
      .ok ⟨localite, t, lat, lon, cols⟩

/-- The multi-location loop of `src/main.py` (lines 485-497): same
truncating iteration as `src/app.py`, but with no per-location guard —
`create_dataframe` runs directly and any exception aborts the loop. -/
def process_rows (lmap : List ((String × String) × String)) (mode : String) :
    List ((String × String) × JVal) → Except PyErr (List Row)
  | [] => .ok []
  | ((lat, lon), forecast) :: rest =>
    match create_dataframe forecast lat lon (localiteFor lmap lat lon) mode with
    | .error e => .error e
    | .ok row =>
      match process_rows lmap mode rest with
      | .error e => .error e
      | .ok rows => .ok (row :: rows)

/-- The response dispatch of `src/main.py` (lines 484-506): array
responses run the loop, any other response is normalized directly as a
single location with the first coordinate pair. -/
def collect (data : JVal) (pairs : List (String × String))
    (lmap : List ((String × String) × String)) (mode : String) :
    Except PyErr (List Row) :=
  match data with
  | .arr items => process_rows lmap mode (pairs.zip items)
  | _ =>
    match pairs with
    | [] => .error .indexError
    | (lat, lon) :: _ =>
      match create_dataframe data lat lon (localiteFor lmap lat lon) mode with
      | .error e => .error e
      | .ok row => .ok [row]

/-- The submission handler of `src/main.py` after the API call (lines
480-509). `src/main.py` never inspects `response.status_code`, so the
`status` argument is unused; zero produced rows make `pd.concat` raise
`ValueError("No objects to concatenate")`. -/
def submission (status : Nat) (data : JVal) (pairs : List (String × String))
    (lmap : List ((String × String) × String)) (mode : String) :
    Except PyErr (List Row) :=
  match collect data pairs lmap mode with
  | .error e => .error e
  | .ok dfs =>
    if dfs.isEmpty then .error (.valueError ("No objects to concatenate"))
    else .ok dfs

/-- The `base_params["daily"]` list of `src/main.py` (lines 445-477):
initialized empty, then one append per enabled checkbox, in the fixed
order max temperature, min temperature, precipitation. -/
def daily_params (temp_max temp_min precipitation : Bool) : List String :=
  (if temp_max then ["temperature_2m_max"] else []) ++
  (if temp_min then ["temperature_2m_min"] else []) ++
  (if precipitation then ["precipitation_sum"] else [])

end Main

/-! ## Weather-mode duration -/

/-- The Weather-mode period selection of the form: either a fixed day
count from the selectbox, or the optional custom date range from
`st.date_input` (dates as day ordinals, so that the Python `.days`
difference is plain subtraction). -/
inductive WeatherPeriod where
  | fixedDays (n : Int)
  | customRange (range : Option (Int × Int))

/-- The options of the fixed-duration selectbox (`[1, 3, 7, 10, 14]` in
both files). -/
def fixed_day_options : List Int := [1, 3, 7, 10, 14]

/-- The `forecast_days` value sent by `src/app.py` (lines 397-401 and
482): the fixed count, or `(date_range[1] - date_range[0]).days + 1 if
date_range else 1`. -/
def App.forecast_days : WeatherPeriod → Int
  | .fixedDays n => n
  | .customRange (some r) => r.2 - r.1 + 1
  | .customRange none => 1

/-- The `forecast_days` parameter sent by `src/main.py` (line 455):
`forecast_days if forecast_type == "Jours fixes" else 16` — every
custom-range submission sends 16, whether or not a range was chosen. -/
def Main.forecast_days_param : WeatherPeriod → Int
  | .fixedDays n => n
  | .customRange _ => 16

/-! ## Lemmas about the coordinate validation -/

/-- The trimmed token pair extracted from a well-formed fragment. -/
def pairTokens (f : String) : String × String :=
  match pySplit f (",") with
  | [a, b] => (pyStrip a, pyStrip b)
  | _ => ("", "")

lemma parse_pairs_ok_of_all2 (l : List String) (h : ∀ f ∈ l, numTokens f = 2) :
    parse_pairs l = .ok (l.map pairTokens) := by
  induction l with
  | nil => rfl
  | cons f rest ih =>
    have hf : numTokens f = 2 := h f (List.mem_cons_self f rest)
    have hrest : parse_pairs rest = .ok (rest.map pairTokens) :=
      ih (fun g hg => h g (List.mem_cons_of_mem f hg))
    unfold parse_pairs
    unfold numTokens at hf
    match hsp : pySplit f (",") with
    | [] => rw [hsp] at hf; simp at hf
    | [a] => rw [hsp] at hf; simp at hf
    | [a, b] =>
      rw [hrest]
      simp [List.map_cons, pairTokens, hsp]
    | a :: b :: c :: tl => rw [hsp] at hf; simp at hf

lemma parse_pairs_err_of_bad (l : List String) (f : String) (hf : f ∈ l)
    (hbad : numTokens f ≠ 2) :
    ∃ g, g ∈ l ∧ numTokens g ≠ 2 ∧ parse_pairs l = .error (.invalidFormat g) := by
  induction l with
  | nil => cases hf
  | cons x rest ih =>
    by_cases hx : numTokens x = 2
    · have hfr : f ∈ rest := by
        cases List.mem_cons.mp hf with
        | inl h => exact absurd (h ▸ hx) hbad
        | inr h => exact h
      obtain ⟨g, hg, hgbad, hge⟩ := ih hfr
      refine ⟨g, List.mem_cons_of_mem x hg, hgbad, ?_⟩
      unfold parse_pairs
      unfold numTokens at hx
      match hsp : pySplit x (",") with
      | [] => rw [hsp] at hx; simp at hx
      | [a] => rw [hsp] at hx; simp at hx
      | [a, b] => rw [hge]
      | a :: b :: c :: tl => rw [hsp] at hx; simp at hx
    · refine ⟨x, List.mem_cons_self x rest, hx, ?_⟩
      unfold parse_pairs
      unfold numTokens at hx
      match hsp : pySplit x (",") with
      | [] => rfl
      | [a] => rfl
      | [a, b] => exact absurd (by rw [hsp]; rfl) hx
      | a :: b :: c :: tl => rfl

lemma parse_pairs_ok_inv (l : List String) (ps : List (String × String))
    (h : parse_pairs l = .ok ps) :
    ps = l.map pairTokens ∧ ∀ f ∈ l, numTokens f = 2 := by
  induction l generalizing ps with
  | nil =>
    unfold parse_pairs at h
    cases h
    exact ⟨rfl, by intro f hf; cases hf⟩
  | cons x rest ih =>
    unfold parse_pairs at h
    match hsp : pySplit x (",") with
    | [] => rw [hsp] at h; cases h
    | [a] => rw [hsp] at h; cases h
    | [a, b] =>
      rw [hsp] at h
      match hrec : parse_pairs rest with
      | .error e => rw [hrec] at h; cases h
      | .ok qs =>
        rw [hrec] at h
        cases h
        obtain ⟨hqs, hall⟩ := ih qs hrec
        constructor
        · simp [List.map_cons, pairTokens, hsp, hqs]
        · intro f hf
          cases List.mem_cons.mp hf with
          | inl hfx => rw [hfx]; unfold numTokens; rw [hsp]; rfl
          | inr hfr => exact hall f hfr
    | a :: b :: c :: tl => rw [hsp] at h; cases h

lemma coords_flat_cons (p : String × String) (ps : List (String × String)) :
    coords_flat (p :: ps) = p.1 :: p.2 :: coords_flat ps := by
  simp [coords_flat]

lemma slice_evens_flat (ps : List (String × String)) :
    slice_evens (coords_flat ps) = ps.map Prod.fst := by
  induction ps with
  | nil => rfl
  | cons p rest ih => rw [coords_flat_cons, slice_evens, ih]; rfl

lemma slice_odds_flat (ps : List (String × String)) :
    slice_odds (coords_flat ps) = ps.map Prod.snd := by
  induction ps with
  | nil => rfl
  | cons p rest ih => rw [coords_flat_cons, slice_odds, ih]; rfl

lemma zip_map_fst_snd (ps : List (String × String)) :
    (ps.map Prod.fst).zip (ps.map Prod.snd) = ps := by
  induction ps with
  | nil => rfl
  | cons p rest ih => simp [List.zip, ih]

/-- C6: the coordinate validation fails with `invalidFormat` (naming an
offending fragment) exactly when some fragment does not split into two
comma-separated tokens, fails with `noCoords` exactly when no fragments
remain (empty or all-whitespace input), and succeeds on every other
input. The `Except` propagation models `st.stop()` aborting the whole
submission with no partial processing. -/
theorem C6_coordinate_failure_cases (coords : String) :
    (fragments coords = [] → parse_coords coords = .error .noCoords)
  ∧ (∀ f ∈ fragments coords, numTokens f ≠ 2 →
      ∃ g, parse_coords coords = .error (.invalidFormat g)
        ∧ g ∈ fragments coords ∧ numTokens g ≠ 2)
  ∧ ((∀ f ∈ fragments coords, numTokens f = 2) → fragments coords ≠ [] →
      ∃ ps, parse_coords coords = .ok ps ∧ ps ≠ []) := by
  refine ⟨?_, ?_, ?_⟩
  · intro hnil
    unfold parse_coords
    rw [hnil]
    rfl
  · intro f hf hbad
    obtain ⟨g, hg, hgbad, hge⟩ := parse_pairs_err_of_bad (fragments coords) f hf hbad
    refine ⟨g, ?_, hg, hgbad⟩
    unfold parse_coords
    rw [hge]
  · intro hall hne
    have hok := parse_pairs_ok_of_all2 (fragments coords) hall
    refine ⟨(fragments coords).map pairTokens, ?_, by simpa using hne⟩
    have hpne : (fragments coords).map pairTokens ≠ [] := by simpa using hne
    have hflat : (coords_flat ((fragments coords).map pairTokens)).isEmpty = false := by
      match hm : (fragments coords).map pairTokens with
      | [] => exact absurd hm hpne
      | p :: ps => rw [coords_flat_cons]; rfl
    unfold parse_coords
    rw [hok]
    show (if (coords_flat ((fragments coords).map pairTokens)).isEmpty then
        (.error CoordError.noCoords : Except CoordError (List (String × String)))
      else .ok ((fragments coords).map pairTokens))
      = .ok ((fragments coords).map pairTokens)
    rw [hflat]
    rfl

/-- C6 witness: the three-token fragment `3.84,11.50,9.99` fails with
`invalidFormat` naming it, and all-whitespace input fails with
`noCoords`. -/
theorem C6_coordinate_failure_cases_witness :
    (∃ g, parse_coords ("3.84,11.50,9.99") = .error (.invalidFormat g)
        ∧ g ∈ fragments ("3.84,11.50,9.99") ∧ numTokens g ≠ 2)
  ∧ parse_coords ("   ") = .error .noCoords := by
  constructor
  · exact (C6_coordinate_failure_cases ("3.84,11.50,9.99")).2.1
      ("3.84,11.50,9.99") (by decide) (by decide)
  · exact (C6_coordinate_failure_cases ("   ")).1 (by decide)

/-- C7: a successful parse returns the trimmed token pairs of the
fragments in input order, and the `latitude` slice `[::2]` and
`longitude` slice `[1::2]` of the flat token list are index-aligned
parallel sequences of equal length whose zip recovers the pairs. -/
theorem C7_token_pair_alignment (coords : String) (ps : List (String × String))
    (h : parse_coords coords = .ok ps) :
    ps = (fragments coords).map pairTokens
  ∧ slice_evens (coords_flat ps) = ps.map Prod.fst
  ∧ slice_odds (coords_flat ps) = ps.map Prod.snd
  ∧ (slice_evens (coords_flat ps)).length = (slice_odds (coords_flat ps)).length
  ∧ (slice_evens (coords_flat ps)).zip (slice_odds (coords_flat ps)) = ps := by
  have hpp : parse_pairs (fragments coords) = .ok ps := by
    unfold parse_coords at h
    match hm : parse_pairs (fragments coords) with
    | .error e => rw [hm] at h; cases h
    | .ok qs =>
      rw [hm] at h
      have h' : (if (coords_flat qs).isEmpty then
          (.error CoordError.noCoords : Except CoordError (List (String × String)))
        else .ok qs) = .ok ps := h
      by_cases hemp : (coords_flat qs).isEmpty = true
      · rw [if_pos hemp] at h'; cases h'
      · rw [if_neg hemp] at h'; cases h'; rfl
  refine ⟨(parse_pairs_ok_inv _ _ hpp).1, slice_evens_flat ps, slice_odds_flat ps, ?_, ?_⟩
  · rw [slice_evens_flat, slice_odds_flat]; simp
  · rw [slice_evens_flat, slice_odds_flat, zip_map_fst_snd]

/-- C7 witness: parsing `3.84,11.50, 4.05,9.76` yields the pairs
`(3.84, 11.50)` then `(4.05, 9.76)` in order, with aligned latitude and
longitude slices. -/
theorem C7_token_pair_alignment_witness :
    parse_coords ("3.84,11.50, 4.05,9.76") = .ok [("3.84", "11.50"), ("4.05", "9.76")]
  ∧ slice_evens (coords_flat [("3.84", "11.50"), ("4.05", "9.76")]) = ["3.84", "4.05"]
  ∧ slice_odds (coords_flat [("3.84", "11.50"), ("4.05", "9.76")]) = ["11.50", "9.76"] := by
  have h : parse_coords ("3.84,11.50, 4.05,9.76") = .ok [("3.84", "11.50"), ("4.05", "9.76")] := by
    rfl
  have h2 := C7_token_pair_alignment _ _ h
  exact ⟨h, by rw [h2.2.1]; rfl, by rw [h2.2.2.1]; rfl⟩

/-! ## Row-schema claims -/

/-- A single-location response whose daily data carries `time` and the
plain minimum-temperature key but lacks the other two variable keys. -/
def c1data : JVal :=
  .obj [("daily", .obj [("time", .arr [.str ("2025-01-01")]),
    ("temperature_2m_min", .arr [.num 20])])]

/-- The row `src/app.py` builds from `c1data`. -/
def c1row : App.Row :=
  ⟨"N/A", .arr [.str ("2025-01-01")], "3.84", "11.50",
    [("Température max (°C)", none),
     ("Température min (°C)", some (.arr [.num 20])),
     ("Précipitations (mm)", none)]⟩

/-- C1 (amended, `src/app.py` side): every row built by
`create_dataframe` of `src/app.py` carries exactly one column per entry
of `param_mapping`, in the fixed order max temperature, min temperature,
precipitation, and a requested variable key that is missing from the
daily data yields the explicit `None` value for that column, never a
default number and never an omitted column. -/
theorem C1_app_uniform_row_schema (data : JVal) (lat lon loc mode : String) (row : App.Row)
    (h : App.create_dataframe data lat lon loc mode = .ok row) :
    row.cols.map Prod.fst
      = ["Température max (°C)", "Température min (°C)", "Précipitations (mm)"]
  ∧ row.cols = App.param_mapping.map
      (fun p => (p.2, (data.lookup ("daily")).bind (fun d => d.lookup p.1)))
  ∧ ∀ p ∈ App.param_mapping, (data.lookup ("daily")).bind (fun d => d.lookup p.1) = none →
      (p.2, (none : Option JVal)) ∈ row.cols := by
  unfold App.create_dataframe at h
  match hm : (data.lookup ("daily")).bind (fun d => d.lookup ("time")) with
  | none => rw [hm] at h; cases h
  | some t =>
    rw [hm] at h
    cases h
    refine ⟨by rfl, by rfl, ?_⟩
    intro p hp hnone
    exact List.mem_map.mpr ⟨p, hp, by rw [hnone]⟩

/-- C1 witness: on `c1data` the row of `src/app.py` has all three
columns, the missing ones explicitly undefined. -/
theorem C1_app_uniform_row_schema_witness :
    (App.create_dataframe c1data ("3.84") ("11.50") ("N/A") ("Prévisions météo")).map
        (fun r => r.cols.map Prod.fst)
      = .ok ["Température max (°C)", "Température min (°C)", "Précipitations (mm)"]
  ∧ ("Température max (°C)", (none : Option JVal)) ∈ c1row.cols := by
  have h : App.create_dataframe c1data ("3.84") ("11.50") ("N/A") ("Prévisions météo")
      = .ok c1row := by rfl
  have h2 := C1_app_uniform_row_schema c1data ("3.84") ("11.50") ("N/A") ("Prévisions météo")
    c1row h
  constructor
  · rw [h]
    show Except.ok (c1row.cols.map Prod.fst) = _
    rw [h2.1]
  · exact h2.2.2 ("temperature_2m_max", "Température max (°C)") (by decide) (by rfl)

/-- C1 counterexample: on the same response, `create_dataframe` of
`src/main.py` silently omits the max-temperature and precipitation
columns even though all three variables are requested by default
(`daily_params true true true`), contradicting the claim that a missing
variable key still yields a column with an undefined value. -/
theorem C1_counterexample :
    (Main.create_dataframe c1data ("3.84") ("11.50") ("N/A") ("Prévisions météo")).map
        (fun r => r.cols.map Prod.fst)
      = .ok ["Température min (°C)"]
  ∧ "temperature_2m_max" ∈ Main.daily_params true true true := by
  exact ⟨by rfl, by decide⟩

/-- The daily data used for the `_mean`-selection claim: both the
`_mean`-suffixed and the plain max-temperature keys are present. -/
def c3both : JVal :=
  .obj [("daily", .obj [("time", .arr [.str ("2025-01-01")]),
    ("temperature_2m_max_mean", .arr [.num 99]),
    ("temperature_2m_max", .arr [.num 30])])]

/-- Daily data with the plain max-temperature key but no `_mean` key. -/
def c3noMean : JVal :=
  .obj [("daily", .obj [("time", .arr [.str ("2025-01-01")]),
    ("temperature_2m_max", .arr [.num 30])])]

lemma Main.optCol_some {daily v : JVal} {k c : String} (h : daily.lookup k = some v) :
    Main.optCol daily k c = [(c, v)] := by
  unfold Main.optCol
  rw [h]

lemma Main.optCol_none {daily : JVal} {k c : String} (h : daily.lookup k = none) :
    Main.optCol daily k c = [] := by
  unfold Main.optCol
  rw [h]

/-- C3 (amended): in `src/main.py`, Seasonal mode selects the `_mean`
variant whenever it is present and omits the column entirely when the
`_mean` key is absent (no fallback to the plain key); every other mode
uses the plain key. `create_dataframe` of `src/app.py` ignores the mode
altogether (it always reads the plain keys). -/
theorem C3_amended_mean_key_selection (data daily t v w : JVal) (lat lon loc : String)
    (hd : data.lookup ("daily") = some daily) (ht : daily.lookup ("time") = some t) :
    (daily.lookup ("temperature_2m_max_mean") = some v →
      ∃ row, Main.create_dataframe data lat lon loc ("Prévisions saisonnières") = .ok row
        ∧ ("Température max (°C)", v) ∈ row.cols)
  ∧ (daily.lookup ("temperature_2m_max_mean") = none →
      ∃ row, Main.create_dataframe data lat lon loc ("Prévisions saisonnières") = .ok row
        ∧ "Température max (°C)" ∉ row.cols.map Prod.fst)
  ∧ (∀ mode, mode ≠ "Prévisions saisonnières" → daily.lookup ("temperature_2m_max") = some w →
      ∃ row, Main.create_dataframe data lat lon loc mode = .ok row
        ∧ ("Température max (°C)", w) ∈ row.cols)
  ∧ (∀ mode, App.create_dataframe data lat lon loc mode
      = App.create_dataframe data lat lon loc ("Prévisions météo")) := by
  refine ⟨?_, ?_, ?_, fun mode => rfl⟩
  · intro hv
    have hcre : Main.create_dataframe data lat lon loc ("Prévisions saisonnières")
        = .ok ⟨loc, t, lat, lon,
          Main.optCol daily ("temperature_2m_max_mean") ("Température max (°C)") ++
          Main.optCol daily ("temperature_2m_min_mean") ("Température min (°C)") ++
          Main.optCol daily ("precipitation_sum_mean") ("Précipitations (mm)")⟩ := by
      unfold Main.create_dataframe
      simp only [hd, ht]
      rfl
    refine ⟨_, hcre, ?_⟩
    show ("Température max (°C)", v) ∈
      Main.optCol daily ("temperature_2m_max_mean") ("Température max (°C)") ++
      Main.optCol daily ("temperature_2m_min_mean") ("Température min (°C)") ++
      Main.optCol daily ("precipitation_sum_mean") ("Précipitations (mm)")
    rw [Main.optCol_some hv]
    simp
  · intro hv
    have hcre : Main.create_dataframe data lat lon loc ("Prévisions saisonnières")
        = .ok ⟨loc, t, lat, lon,
          Main.optCol daily ("temperature_2m_max_mean") ("Température max (°C)") ++
          Main.optCol daily ("temperature_2m_min_mean") ("Température min (°C)") ++
          Main.optCol daily ("precipitation_sum_mean") ("Précipitations (mm)")⟩ := by
      unfold Main.create_dataframe
      simp only [hd, ht]
      rfl
    refine ⟨_, hcre, ?_⟩
    show ("Température max (°C)") ∉
      (Main.optCol daily ("temperature_2m_max_mean") ("Température max (°C)") ++
       Main.optCol daily ("temperature_2m_min_mean") ("Température min (°C)") ++
       Main.optCol daily ("precipitation_sum_mean") ("Précipitations (mm)")).map Prod.fst
    rw [Main.optCol_none hv]
    cases h1 : daily.lookup ("temperature_2m_min_mean") <;>
      cases h2 : daily.lookup ("precipitation_sum_mean") <;>
        simp [Main.optCol_some, Main.optCol_none, h1, h2]
  · intro mode hmode hw
    have hcre : Main.create_dataframe data lat lon loc mode
        = .ok ⟨loc, t, lat, lon,
          Main.optCol daily ("temperature_2m_max") ("Température max (°C)") ++
          Main.optCol daily ("temperature_2m_min") ("Température min (°C)") ++
          Main.optCol daily ("precipitation_sum") ("Précipitations (mm)")⟩ := by
      unfold Main.create_dataframe
      simp only [hd, ht, if_neg hmode]
    refine ⟨_, hcre, ?_⟩
    show ("Température max (°C)", w) ∈
      Main.optCol daily ("temperature_2m_max") ("Température max (°C)") ++
      Main.optCol daily ("temperature_2m_min") ("Température min (°C)") ++
      Main.optCol daily ("precipitation_sum") ("Précipitations (mm)")
    rw [Main.optCol_some hw]
    simp

/-- C3 witness: with both the `_mean` and the plain keys present,
Seasonal mode in `src/main.py` selects the `_mean` value. -/
theorem C3_amended_mean_key_selection_witness :
    ∃ row, Main.create_dataframe c3both ("1") ("2") ("N/A") ("Prévisions saisonnières") = .ok row
      ∧ ("Température max (°C)", JVal.arr [.num 99]) ∈ row.cols := by
  exact (C3_amended_mean_key_selection c3both
    (.obj [("time", .arr [.str ("2025-01-01")]),
      ("temperature_2m_max_mean", .arr [.num 99]),
      ("temperature_2m_max", .arr [.num 30])])
    (.arr [.str ("2025-01-01")]) (.arr [.num 99]) (.arr [.num 30]) ("1") ("2") ("N/A")
    (by rfl) (by rfl)).1 (by rfl)

/-- C3 counterexample: contrary to the claim, in Seasonal mode
`src/main.py` does not fall back to the plain key when the `_mean` key
is absent (the row has no variable column at all), and `src/app.py`
selects the plain variant even when both keys are present. -/
theorem C3_counterexample :
    (Main.create_dataframe c3noMean ("1") ("2") ("N/A") ("Prévisions saisonnières")).map
        (fun r => r.cols.map Prod.fst) = .ok []
  ∧ (App.create_dataframe c3both ("1") ("2") ("N/A") ("Prévisions saisonnières")).map
        (fun r => r.cols) =
      .ok [("Température max (°C)", some (.arr [.num 30])),
           ("Température min (°C)", none),
           ("Précipitations (mm)", none)] := by
  exact ⟨by rfl, by rfl⟩

/-! ## Request-building claims -/

/-- C5 (amended, `src/main.py` side): the `daily` list built by
`src/main.py` contains each variable exactly when its checkbox is on
(in the fixed order max temperature, min temperature, precipitation),
is empty exactly when all three checkboxes are off, and an all-off
submission is not an error: a response whose daily data carries only
`time` still normalizes to a row with no variable columns. -/
theorem C5_amended_requested_variables (a b c : Bool) (t : JVal) (lat lon loc mode : String) :
    (("temperature_2m_max" ∈ Main.daily_params a b c) ↔ a = true)
  ∧ (("temperature_2m_min" ∈ Main.daily_params a b c) ↔ b = true)
  ∧ (("precipitation_sum" ∈ Main.daily_params a b c) ↔ c = true)
  ∧ (Main.daily_params a b c = [] ↔ (a = false ∧ b = false ∧ c = false))
  ∧ Main.create_dataframe (.obj [("daily", .obj [("time", t)])]) lat lon loc mode
      = .ok ⟨loc, t, lat, lon, []⟩ := by
  refine ⟨?_, ?_, ?_, ?_, ?_⟩
  · cases a <;> cases b <;> cases c <;> simp [Main.daily_params]
  · cases a <;> cases b <;> cases c <;> simp [Main.daily_params]
  · cases a <;> cases b <;> cases c <;> simp [Main.daily_params]
  · cases a <;> cases b <;> cases c <;> simp [Main.daily_params]
  · unfold Main.create_dataframe
    show (let cols := if mode = "Prévisions saisonnières" then _ else _
      Except.ok (⟨loc, t, lat, lon, cols⟩ : Main.Row)) = _
    by_cases hmode : mode = "Prévisions saisonnières" <;>
      simp [hmode, Main.optCol, JVal.lookup]

/-- C5 witness: with every checkbox off, `src/main.py` requests no
variable and a time-only response still yields a row without variable
columns rather than an error. -/
theorem C5_amended_requested_variables_witness :
    "temperature_2m_max" ∉ Main.daily_params false false false
  ∧ Main.daily_params false false false = []
  ∧ Main.create_dataframe (.obj [("daily", .obj [("time", .arr [])])]) ("1") ("2") ("N/A")
      ("Prévisions météo") = .ok ⟨"N/A", .arr [], "1", "2", []⟩ := by
  have h := C5_amended_requested_variables false false false (.arr []) ("1") ("2") ("N/A")
    ("Prévisions météo")
  exact ⟨fun hm => absurd (h.1.mp hm) (by decide), h.2.2.2.1.mpr ⟨rfl, rfl, rfl⟩, h.2.2.2.2⟩

/-- C5 counterexample: `src/app.py` ignores the checkboxes — with the
max-temperature checkbox off it still requests all three variables,
whereas `src/main.py` honors the toggles. -/
theorem C5_counterexample :
    App.daily_params ("Prévisions météo") false true true
      = ["temperature_2m_max", "temperature_2m_min", "precipitation_sum"]
  ∧ "temperature_2m_max" ∈ App.daily_params ("Prévisions météo") false true true
  ∧ "temperature_2m_max" ∉ Main.daily_params false true true := by
  refine ⟨by rfl, by decide, by decide⟩

/-- C8 (amended): in Weather mode, `src/app.py` sends the fixed day
count chosen from the enumerated selectbox set, the value
`(end - start).days + 1` when a custom range is given, and defaults to
1 (not 16) when the custom-range option is selected with no range;
`src/main.py` sends the fixed count in fixed-days mode and the sentinel
16 for every custom-range submission, whether or not a range was
chosen. -/
theorem C8_amended_weather_duration (n s e : Int) (r : Option (Int × Int))
    (hn : n ∈ fixed_day_options) :
    App.forecast_days (.fixedDays n) = n
  ∧ Main.forecast_days_param (.fixedDays n) = n
  ∧ App.forecast_days (.customRange (some (s, e))) = e - s + 1
  ∧ App.forecast_days (.customRange none) = 1
  ∧ Main.forecast_days_param (.customRange r) = 16 := by
  exact ⟨rfl, rfl, rfl, rfl, rfl⟩

/-- C8 witness: concrete instance at the default fixed choice 7 and a
three-day range. -/
theorem C8_amended_weather_duration_witness :
    App.forecast_days (.fixedDays 7) = 7
  ∧ Main.forecast_days_param (.fixedDays 7) = 7
  ∧ App.forecast_days (.customRange (some (10, 12))) = 3
  ∧ App.forecast_days (.customRange none) = 1
  ∧ Main.forecast_days_param (.customRange none) = 16 := by
  have h := C8_amended_weather_duration 7 10 12 none (by decide)
  exact ⟨h.1, h.2.1, by rw [h.2.2.1]; decide, h.2.2.2.1, h.2.2.2.2⟩

/-- C8 counterexample: with an explicitly chosen three-day range,
`src/main.py` sends 16 rather than the computed duration 3, and with the
custom-range option selected but no range given, `src/app.py` sends 1
rather than the claimed sentinel 16. -/
theorem C8_counterexample :
    Main.forecast_days_param (.customRange (some (0, 2))) = 16
  ∧ (2 - 0 + 1 : Int) = 3
  ∧ (16 : Int) ≠ 3
  ∧ App.forecast_days (.customRange none) = 1
  ∧ (1 : Int) ≠ 16 := by
  refine ⟨rfl, by decide, by decide, rfl, by decide⟩

/-! ## Normalization-loop lemmas -/

lemma App.process_rows_ok (lmap : List ((String × String) × String)) (mode : String)
    (l : List ((String × String) × JVal))
    (hw : ∀ q ∈ l, App.goodDaily q.2 = true →
      (((q.2).lookup ("daily")).bind (fun d => d.lookup ("time"))).isSome) :
    ∃ rows warns, App.process_rows lmap mode l = .ok (rows, warns)
      ∧ rows.length = (l.filter (fun q => App.goodDaily q.2)).length
      ∧ warns = (l.filter (fun q => !App.goodDaily q.2)).map
          (fun q => "Données invalides pour " ++ q.1.1 ++ "," ++ q.1.2) := by
  induction l with
  | nil => exact ⟨[], [], rfl, rfl, rfl⟩
  | cons q rest ih =>
    obtain ⟨rows, warns, hok, hlen, hwarns⟩ := ih (fun p hp => hw p (List.mem_cons_of_mem q hp))
    obtain ⟨⟨lat, lon⟩, forecast⟩ := q
    by_cases hg : App.goodDaily forecast = true
    · have htime := hw ((lat, lon), forecast) (List.mem_cons_self _ _) hg
      obtain ⟨t, ht⟩ := Option.isSome_iff_exists.mp htime
      have ht' : (forecast.lookup ("daily")).bind (fun d => d.lookup ("time")) = some t := ht
      have hcre : App.create_dataframe forecast lat lon (localiteFor lmap lat lon) mode
          = .ok ⟨localiteFor lmap lat lon, t, lat, lon,
            App.param_mapping.map
              (fun p => (p.2, (forecast.lookup ("daily")).bind (fun d => d.lookup p.1)))⟩ := by
        unfold App.create_dataframe
        simp only [ht']
      refine ⟨(⟨localiteFor lmap lat lon, t, lat, lon,
        App.param_mapping.map
          (fun p => (p.2, (forecast.lookup ("daily")).bind (fun d => d.lookup p.1)))⟩ :
            App.Row) :: rows, warns, ?_, ?_, ?_⟩
      · simp only [App.process_rows, hg, if_true, hcre, hok]
      · simp [List.filter_cons, hg, hlen]
      · simp [List.filter_cons, hg, hwarns]
    · have hgf : App.goodDaily forecast = false := by
        revert hg; cases App.goodDaily forecast <;> simp
      refine ⟨rows, ("Données invalides pour " ++ lat ++ "," ++ lon) :: warns, ?_, ?_, ?_⟩
      · simp only [App.process_rows, hgf, Bool.false_eq_true, if_false, hok]
      · simp [List.filter_cons, hgf, hlen]
      · simp [List.filter_cons, hgf, hwarns]

lemma App.process_rows_count (lmap : List ((String × String) × String)) (mode : String)
    (l : List ((String × String) × JVal)) (rows : List App.Row) (warns : List String)
    (h : App.process_rows lmap mode l = .ok (rows, warns)) :
    rows.length + warns.length = l.length := by
  induction l generalizing rows warns with
  | nil =>
    unfold App.process_rows at h
    cases h
    rfl
  | cons q rest ih =>
    obtain ⟨⟨lat, lon⟩, forecast⟩ := q
    unfold App.process_rows at h
    by_cases hg : App.goodDaily forecast = true
    · rw [if_pos hg] at h
      match hcre : App.create_dataframe forecast lat lon (localiteFor lmap lat lon) mode with
      | .error e => rw [hcre] at h; cases h
      | .ok row =>
        rw [hcre] at h
        match hrec : App.process_rows lmap mode rest with
        | .error e => rw [hrec] at h; cases h
        | .ok pr =>
          obtain ⟨rows0, warns0⟩ := pr
          rw [hrec] at h
          cases h
          have := ih _ _ hrec
          simp only [List.length_cons]
          omega
    · rw [if_neg hg] at h
      match hrec : App.process_rows lmap mode rest with
      | .error e => rw [hrec] at h; cases h
      | .ok pr =>
        obtain ⟨rows0, warns0⟩ := pr
        rw [hrec] at h
        cases h
        have := ih _ _ hrec
        simp only [List.length_cons]
        omega

lemma Main.process_rows_length (lmap : List ((String × String) × String)) (mode : String)
    (l : List ((String × String) × JVal)) (rows : List Main.Row)
    (h : Main.process_rows lmap mode l = .ok rows) :
    rows.length = l.length := by
  induction l generalizing rows with
  | nil =>
    unfold Main.process_rows at h
    cases h
    rfl
  | cons q rest ih =>
    obtain ⟨⟨lat, lon⟩, forecast⟩ := q
    unfold Main.process_rows at h
    match hcre : Main.create_dataframe forecast lat lon (localiteFor lmap lat lon) mode with
    | .error e => rw [hcre] at h; cases h
    | .ok row =>
      rw [hcre] at h
      match hrec : Main.process_rows lmap mode rest with
      | .error e => rw [hrec] at h; cases h
      | .ok rows0 =>
        rw [hrec] at h
        cases h
        simp [ih rows0 hrec]

lemma zip_take_length (l1 : List α) (l2 : List β) :
    l1.zip l2 = (l1.take l2.length).zip l2 := by
  induction l1 generalizing l2 with
  | nil => simp
  | cons a l1 ih =>
    cases l2 with
    | nil => simp
    | cons b l2 => simp [ih]

/-! ## Partial-failure tolerance (C2) -/

/-- A well-formed location object for the C2 witness. -/
def c2good : JVal :=
  .obj [("daily", .obj [("time", .arr [.str ("2025-01-01")]),
    ("temperature_2m_max", .arr [.num 30])])]

/-- C2 (amended): in `src/app.py`, a multi-location response processes
each zipped location independently — locations failing the dict/`daily`
guard are skipped with one recorded warning each and every location
whose `daily` also carries `time` yields a row, so the table is
non-empty as soon as one location is good (a location whose `daily`
lacks `time` still aborts the whole submission); a single-object
response without `daily` fails hard in both variants (`ValueError` in
`src/app.py`, `KeyError` in `src/main.py`). In `src/main.py` the
multi-location skip does not exist (see the counterexample). -/
theorem C2_amended_skip_tolerance (items : List JVal) (pairs : List (String × String))
    (lmap : List ((String × String) × String)) (mode : String) (fs : List (String × JVal))
    (p : String × String) (rest : List (String × String))
    (hw : ∀ it ∈ items, App.goodDaily it = true →
      ((it.lookup ("daily")).bind (fun d => d.lookup ("time"))).isSome) :
    (∃ rows warns, App.process_rows lmap mode (pairs.zip items) = .ok (rows, warns)
      ∧ rows.length = ((pairs.zip items).filter (fun q => App.goodDaily q.2)).length
      ∧ warns = ((pairs.zip items).filter (fun q => !App.goodDaily q.2)).map
          (fun q => "Données invalides pour " ++ q.1.1 ++ "," ++ q.1.2))
  ∧ (0 < ((pairs.zip items).filter (fun q => App.goodDaily q.2)).length →
      ∃ rows warns, App.submission 200 (.arr items) pairs lmap mode = .ok (rows, warns)
        ∧ rows ≠ [])
  ∧ ((JVal.obj fs).lookup ("daily") = none →
      App.collect (.obj fs) (p :: rest) lmap mode
        = .error (.valueError ("Structure de réponse API invalide : clé \x27daily\x27 manquante")))
  ∧ ((JVal.obj fs).lookup ("daily") = none →
      Main.collect (.obj fs) (p :: rest) lmap mode = .error (.keyError ("daily"))) := by
  have hw' : ∀ q ∈ pairs.zip items, App.goodDaily q.2 = true →
      (((q.2).lookup ("daily")).bind (fun d => d.lookup ("time"))).isSome := by
    intro q hq
    obtain ⟨a, b⟩ := q
    exact hw b (List.of_mem_zip hq).2
  obtain ⟨rows, warns, hok, hlen, hwarns⟩ := App.process_rows_ok lmap mode (pairs.zip items) hw'
  refine ⟨⟨rows, warns, hok, hlen, hwarns⟩, ?_, ?_, ?_⟩
  · intro hpos
    refine ⟨rows, warns, ?_, ?_⟩
    · show (match App.collect (.arr items) pairs lmap mode with
        | Except.error e => (Except.error e : Except PyErr (List App.Row × List String))
        | Except.ok (dfs, warns) =>
          if dfs.isEmpty then
            Except.error (PyErr.valueError ("No objects to concatenate"))
          else Except.ok (dfs, warns))
        = Except.ok (rows, warns)
      have hcol : App.collect (.arr items) pairs lmap mode = .ok (rows, warns) := hok
      rw [hcol]
      have hne : rows.isEmpty = false := by
        have : rows ≠ [] := List.ne_nil_of_length_pos (hlen ▸ hpos)
        cases rows with
        | nil => exact absurd rfl this
        | cons r rs => rfl
      show (if rows.isEmpty then
          (Except.error (PyErr.valueError ("No objects to concatenate")) :
            Except PyErr (List App.Row × List String))
        else Except.ok (rows, warns)) = Except.ok (rows, warns)
      rw [hne]
      rfl
    · exact List.ne_nil_of_length_pos (hlen ▸ hpos)
  · intro h
    show (if ((JVal.obj fs).lookup ("daily")).isNone then
        (.error (.valueError ("Structure de réponse API invalide : clé \x27daily\x27 manquante")) :
          Except PyErr (List App.Row × List String))
      else
        match p :: rest with
        | [] => Except.error PyErr.indexError
        | (lat, lon) :: _ =>
          match App.create_dataframe (.obj fs) lat lon (localiteFor lmap lat lon) mode with
          | Except.error e => Except.error e
          | Except.ok row => Except.ok ([row], []))
      = Except.error (PyErr.valueError ("Structure de réponse API invalide : clé \x27daily\x27 manquante"))
    rw [h]
    rfl
  · intro h
    obtain ⟨lat, lon⟩ := p
    show (match Main.create_dataframe (.obj fs) lat lon (localiteFor lmap lat lon) mode with
      | Except.error e => (Except.error e : Except PyErr (List Main.Row))
      | Except.ok row => Except.ok [row])
      = Except.error (PyErr.keyError ("daily"))
    have hcre : Main.create_dataframe (.obj fs) lat lon (localiteFor lmap lat lon) mode
        = .error (.keyError ("daily")) := by
      unfold Main.create_dataframe
      rw [h]
    rw [hcre]

/-- C2 witness: a two-location response whose second location lacks
`daily` yields a non-empty table from `src/app.py`. -/
theorem C2_amended_skip_tolerance_witness :
    ∃ rows warns,
      App.submission 200 (.arr [c2good, .obj []]) [("1", "2"), ("3", "4")] [] ("Prévisions météo")
        = .ok (rows, warns) ∧ rows ≠ [] := by
  exact (C2_amended_skip_tolerance [c2good, .obj []] [("1", "2"), ("3", "4")] []
    ("Prévisions météo") [] ("1", "2") [] (by decide)).2.1 (by decide)

/-- C2 counterexample: in `src/main.py`, a multi-location response whose
first location lacks `daily` aborts the whole submission with a KeyError
instead of skipping that location and producing rows for the remaining
good location, contradicting the claimed partial-failure tolerance. -/
theorem C2_counterexample :
    Main.submission 200 (.arr [.obj [], c2good]) [("1", "2"), ("3", "4")] [] ("Prévisions météo")
      = .error (.keyError ("daily")) := by
  rfl

/-! ## Zero-row failure (C9) -/

/-- C9 (amended): in `src/app.py`, when every location of an
array-shaped response fails the dict/`daily` guard, zero rows are
produced and the submission fails with the `pd.concat` ValueError
(the realization of `NoValidData`) rather than yielding an empty table;
`src/main.py` reaches the same failure when the response array is
empty, but a location lacking `daily` aborts earlier with a KeyError
(see the counterexample). -/
theorem C9_zero_rows_no_valid_data (items : List JVal) (pairs : List (String × String))
    (lmap : List ((String × String) × String)) (mode : String)
    (h : ∀ it ∈ items, App.goodDaily it = false) :
    App.submission 200 (.arr items) pairs lmap mode
      = .error (.valueError ("No objects to concatenate"))
  ∧ Main.submission 200 (.arr []) pairs lmap mode
      = .error (.valueError ("No objects to concatenate")) := by
  constructor
  · have hw : ∀ q ∈ pairs.zip items, App.goodDaily q.2 = true →
        (((q.2).lookup ("daily")).bind (fun d => d.lookup ("time"))).isSome := by
      intro q hq hg
      obtain ⟨a, b⟩ := q
      rw [h b (List.of_mem_zip hq).2] at hg
      cases hg
    obtain ⟨rows, warns, hok, hlen, hwarns⟩ := App.process_rows_ok lmap mode (pairs.zip items) hw
    have hfilter : (pairs.zip items).filter (fun q => App.goodDaily q.2) = [] := by
      rw [List.filter_eq_nil_iff]
      intro q hq
      obtain ⟨a, b⟩ := q
      simp [h b (List.of_mem_zip hq).2]
    have hrows : rows = [] := List.length_eq_zero.mp (by rw [hlen, hfilter]; rfl)
    subst hrows
    show (match App.collect (.arr items) pairs lmap mode with
      | Except.error e => (Except.error e : Except PyErr (List App.Row × List String))
      | Except.ok (dfs, warns) =>
        if dfs.isEmpty then
          Except.error (PyErr.valueError ("No objects to concatenate"))
        else Except.ok (dfs, warns))
      = Except.error (PyErr.valueError ("No objects to concatenate"))
    have hcol : App.collect (.arr items) pairs lmap mode = .ok ([], warns) := hok
    rw [hcol]
    rfl
  · show (match Main.collect (.arr []) pairs lmap mode with
      | Except.error e => (Except.error e : Except PyErr (List Main.Row))
      | Except.ok dfs =>
        if dfs.isEmpty then
          Except.error (PyErr.valueError ("No objects to concatenate"))
        else Except.ok dfs)
      = Except.error (PyErr.valueError ("No objects to concatenate"))
    have hcol : Main.collect (.arr []) pairs lmap mode = .ok [] := by
      show Main.process_rows lmap mode (pairs.zip []) = .ok []
      rw [List.zip_nil_right]
      rfl
    rw [hcol]
    rfl

/-- C9 witness: a one-location response without `daily` fails with the
concat error in `src/app.py`. -/
theorem C9_zero_rows_no_valid_data_witness :
    App.submission 200 (.arr [JVal.obj []]) [("3.84", "11.50")] [] ("Prévisions météo")
      = .error (.valueError ("No objects to concatenate")) :=
  (C9_zero_rows_no_valid_data [JVal.obj []] [("3.84", "11.50")] [] ("Prévisions météo")
    (by decide)).1

/-- C9 counterexample: in `src/main.py`, a multi-location response all
of whose locations lack `daily` fails with the KeyError raised at the
first location — a different error than the claimed `NoValidData`
(concat) failure. -/
theorem C9_counterexample :
    Main.submission 200 (.arr [JVal.obj [], JVal.obj []]) [("1", "2"), ("3", "4")] []
      ("Prévisions météo") = .error (.keyError ("daily"))
  ∧ PyErr.keyError ("daily") ≠ PyErr.valueError ("No objects to concatenate") := by
  exact ⟨by rfl, by decide⟩

/-! ## Response truncation (C10) -/

/-- A well-formed location object for the C10 witness. -/
def c10loc : JVal := .obj [("daily", .obj [("time", .arr [.str ("2025-01-01")])])]

/-- The row `src/app.py` builds from `c10loc` at coordinates (1, 2). -/
def c10row : App.Row :=
  ⟨"N/A", .arr [.str ("2025-01-01")], "1", "2",
    [("Température max (°C)", none), ("Température min (°C)", none),
     ("Précipitations (mm)", none)]⟩

/-- C10: with an array-shaped response shorter than the coordinate
list, both variants process only the first `len(response)` coordinate
pairs, paired positionally — the result is identical to submitting only
those pairs, so the surplus pairs yield no rows, no recorded warning
and no error; the row and warning counts never exceed the number of
response locations. -/
theorem C10_response_truncation (items : List JVal) (pairs : List (String × String))
    (lmap : List ((String × String) × String)) (mode : String) :
    App.collect (.arr items) pairs lmap mode
      = App.collect (.arr items) (pairs.take items.length) lmap mode
  ∧ Main.collect (.arr items) pairs lmap mode
      = Main.collect (.arr items) (pairs.take items.length) lmap mode
  ∧ (∀ rows warns, App.process_rows lmap mode (pairs.zip items) = .ok (rows, warns) →
      rows.length + warns.length = (pairs.zip items).length ∧ rows.length ≤ items.length)
  ∧ (∀ rows, Main.process_rows lmap mode (pairs.zip items) = .ok rows →
      rows.length = (pairs.zip items).length ∧ rows.length ≤ items.length) := by
  refine ⟨?_, ?_, ?_, ?_⟩
  · show App.process_rows lmap mode (pairs.zip items)
      = App.process_rows lmap mode ((pairs.take items.length).zip items)
    rw [← zip_take_length]
  · show Main.process_rows lmap mode (pairs.zip items)
      = Main.process_rows lmap mode ((pairs.take items.length).zip items)
    rw [← zip_take_length]
  · intro rows warns hok
    have hc := App.process_rows_count lmap mode (pairs.zip items) rows warns hok
    refine ⟨hc, ?_⟩
    have hz : (pairs.zip items).length ≤ items.length := by
      rw [List.length_zip]
      exact min_le_right _ _
    omega
  · intro rows hok
    have hc := Main.process_rows_length lmap mode (pairs.zip items) rows hok
    refine ⟨hc, ?_⟩
    have hz : (pairs.zip items).length ≤ items.length := by
      rw [List.length_zip]
      exact min_le_right _ _
    omega

/-- C10 witness: with one response location and two coordinate pairs,
processing equals processing the first pair alone and exactly one row
is produced. -/
theorem C10_response_truncation_witness :
    App.collect (.arr [c10loc]) [("1", "2"), ("3", "4")] [] ("Prévisions météo")
      = App.collect (.arr [c10loc]) [("1", "2")] [] ("Prévisions météo")
  ∧ (1 : Nat) + 0 = ([("1", "2"), ("3", "4")].zip [c10loc]).length
  ∧ (1 : Nat) ≤ 1 := by
  have h := C10_response_truncation [c10loc] [("1", "2"), ("3", "4")] [] ("Prévisions météo")
  have h3 := h.2.2.1 [c10row] [] (by rfl)
  exact ⟨h.1, h3.1, h3.2⟩

/-! ## API error handling (C4) -/

/-- A well-formed single-location response for the C4 counterexample. -/
def c4goodSingle : JVal :=
  .obj [("daily", .obj [("time", .arr [.str ("2025-01-01")]),
    ("temperature_2m_max", .arr [.num 30])])]

/-- C4 (amended, `src/app.py` side): a non-200 status aborts the
submission of `src/app.py` with `ValueError(get_api_error(...))`; the
message of `get_api_error` appends the body reason (defaulting to
`Erreur inconnue`) after the canned per-status text for dict-shaped
bodies, uses the canned text alone for the five known statuses on
non-dict bodies, and falls back to the generic `Erreur HTTP code`
message for unknown statuses. `src/main.py` never checks the status
(see the counterexample). -/
theorem C4_amended_api_error (status : Nat) (data : JVal) (pairs : List (String × String))
    (lmap : List ((String × String) × String)) (mode : String) (fs : List (String × JVal))
    (r : String) (hs : status ≠ 200) :
    App.submission status data pairs lmap mode
      = .error (.valueError (App.get_api_error data status))
  ∧ ((JVal.obj fs).lookup ("reason") = some (.str r) →
      App.get_api_error (.obj fs) status
        = (((App.error_mapping.find? (fun e => e.1 == status)).map Prod.snd).getD
            ("Erreur HTTP " ++ toString status)) ++ " : " ++ r)
  ∧ ((JVal.obj fs).lookup ("reason") = none →
      App.get_api_error (.obj fs) 404 = "Endpoint introuvable : Erreur inconnue")
  ∧ (data.isObj = false → status ∉ ([400, 401, 403, 404, 500] : List Nat) →
      App.get_api_error data status = "Erreur HTTP " ++ toString status)
  ∧ App.get_api_error (.arr []) 400 = "Requête invalide - Vérifiez les paramètres"
  ∧ App.get_api_error (.arr []) 401 = "Authentification requise"
  ∧ App.get_api_error (.arr []) 403 = "Accès refusé"
  ∧ App.get_api_error (.arr []) 404 = "Endpoint introuvable"
  ∧ App.get_api_error (.arr []) 500 = "Erreur serveur" := by
  refine ⟨?_, ?_, ?_, ?_, rfl, rfl, rfl, rfl, rfl⟩
  · unfold App.submission
    rw [if_pos hs]
  · intro h
    show (((App.error_mapping.find? (fun e => e.1 == status)).map Prod.snd).getD
        ("Erreur HTTP " ++ toString status)) ++ " : "
        ++ (((JVal.obj fs).lookup ("reason")).getD (.str ("Erreur inconnue"))).pyText
      = (((App.error_mapping.find? (fun e => e.1 == status)).map Prod.snd).getD
        ("Erreur HTTP " ++ toString status)) ++ " : " ++ r
    rw [h]
    rfl
  · intro h
    show (((App.error_mapping.find? (fun e => e.1 == 404)).map Prod.snd).getD
        ("Erreur HTTP " ++ toString 404)) ++ " : "
        ++ (((JVal.obj fs).lookup ("reason")).getD (.str ("Erreur inconnue"))).pyText
      = "Endpoint introuvable : Erreur inconnue"
    rw [h]
    rfl
  · intro hobj hstat
    have h1 : ¬ (400 = status) := by intro he; exact hstat (by simp [← he])
    have h2 : ¬ (401 = status) := by intro he; exact hstat (by simp [← he])
    have h3 : ¬ (403 = status) := by intro he; exact hstat (by simp [← he])
    have h4 : ¬ (404 = status) := by intro he; exact hstat (by simp [← he])
    have h5 : ¬ (500 = status) := by intro he; exact hstat (by simp [← he])
    have b1 : (400 == status) = false := beq_eq_false_iff_ne.mpr h1
    have b2 : (401 == status) = false := beq_eq_false_iff_ne.mpr h2
    have b3 : (403 == status) = false := beq_eq_false_iff_ne.mpr h3
    have b4 : (404 == status) = false := beq_eq_false_iff_ne.mpr h4
    have b5 : (500 == status) = false := beq_eq_false_iff_ne.mpr h5
    have hfind : App.error_mapping.find? (fun e => e.1 == status) = none := by
      simp [App.error_mapping, List.find?, b1, b2, b3, b4, b5]
    cases data with
    | obj fields => simp [JVal.isObj] at hobj
    | null =>
      show (((App.error_mapping.find? (fun e => e.1 == status)).map Prod.snd).getD
        ("Erreur HTTP " ++ toString status)) = "Erreur HTTP " ++ toString status
      rw [hfind]
      rfl
    | bool b =>
      show (((App.error_mapping.find? (fun e => e.1 == status)).map Prod.snd).getD
        ("Erreur HTTP " ++ toString status)) = "Erreur HTTP " ++ toString status
      rw [hfind]
      rfl
    | num n =>
      show (((App.error_mapping.find? (fun e => e.1 == status)).map Prod.snd).getD
        ("Erreur HTTP " ++ toString status)) = "Erreur HTTP " ++ toString status
      rw [hfind]
      rfl
    | str s =>
      show (((App.error_mapping.find? (fun e => e.1 == status)).map Prod.snd).getD
        ("Erreur HTTP " ++ toString status)) = "Erreur HTTP " ++ toString status
      rw [hfind]
      rfl
    | arr xs =>
      show (((App.error_mapping.find? (fun e => e.1 == status)).map Prod.snd).getD
        ("Erreur HTTP " ++ toString status)) = "Erreur HTTP " ++ toString status
      rw [hfind]
      rfl

/-- C4 witness: a 404 with a non-dict body aborts the `src/app.py`
submission with the canned message, and a dict body with a reason field
yields the canned text suffixed with the reason. -/
theorem C4_amended_api_error_witness :
    App.submission 404 (.arr []) [] [] ("Prévisions météo")
      = .error (.valueError ("Endpoint introuvable"))
  ∧ App.get_api_error (.obj [("reason", .str ("boom"))]) 404
      = "Endpoint introuvable : boom" := by
  have h := C4_amended_api_error 404 (.arr []) [] [] ("Prévisions météo")
    [("reason", .str ("boom"))] ("boom") (by decide)
  constructor
  · rw [h.1]
    rfl
  · rw [h.2.1 (by rfl)]
    rfl

/-- C4 counterexample: `src/main.py` never inspects the status code — a
404 response with a well-formed body succeeds identically to a 200
response, so the pipeline does not fail with an ApiError as claimed. -/
theorem C4_counterexample :
    (Main.submission 404 c4goodSingle [("3.84", "11.50")] [] ("Prévisions météo")).toOption.isSome
      = true
  ∧ Main.submission 404 c4goodSingle [("3.84", "11.50")] [] ("Prévisions météo")
      = Main.submission 200 c4goodSingle [("3.84", "11.50")] [] ("Prévisions météo") := by
  exact ⟨by rfl, by rfl⟩
